import Mathlib

/-!
Verification development for the resonate durable-promise server.

The store layer (`internal/app/subsystems/aio/store/sqlite/sqlite.go`) is
embedded as pure functions over an explicit database state: each SQL statement
of the source file is translated to a list transformation with the same
semantics, and each Go handler to a function returning `Except` (Go's
`error` return), with `util.Assert` failures modelled as a distinguished
error.  The promise coroutines (`ReadPromise`, `RejectPromise`) are embedded
as decision functions from the data they have read to the action they take
(respond, spawn the timeout coroutine, or submit a store transaction),
mirroring the control flow of the Go source.
-/

deriving instance DecidableEq for Except

namespace Resonate

/-! ## Data model

`Value` mirrors the Go struct `promise.Value { Headers map[string]string;
Data []byte }`; both fields are nilable in Go, hence `Option`.  Header maps
and tag maps are carried as association lists (Go marshals them to JSON
blobs before storage). -/

abbrev Headers := List (String × String)

abbrev Bytes := List Nat

structure Value where
  headers : Option Headers
  data : Option Bytes
deriving DecidableEq

/-- Promise states.  The stored integer encoding (spec section 6): Pending=1,
Resolved=2, Rejected=4, Timedout=8, Canceled=16. -/
inductive State where
  | pending
  | resolved
  | rejected
  | timedout
  | canceled
deriving DecidableEq

def State.toNat : State → Nat
  | .pending => 1
  | .resolved => 2
  | .rejected => 4
  | .timedout => 8
  | .canceled => 16

/-- Predicate `State.In(mask)` of the Go promise package: membership in a bitmask. -/
def State.isIn (s : State) (mask : Nat) : Bool := s.toNat &&& mask != 0

/-- A row of the `promises` table (schema in `CREATE_TABLE_STATEMENT`).
Nullable columns are `Option`. -/
structure PromiseRow where
  id : String
  sortId : Int
  state : Nat
  paramHeaders : Option Headers
  paramData : Option Bytes
  valueHeaders : Option Headers
  valueData : Option Bytes
  timeout : Int
  idempotencyKeyForCreate : Option String
  idempotencyKeyForComplete : Option String
  tags : Option Headers
  createdOn : Option Int
  completedOn : Option Int
deriving DecidableEq

/-- A row of the `subscriptions` table. -/
structure SubscriptionRow where
  id : String
  promiseId : String
  sortId : Int
  url : String
  retryPolicy : String
  createdOn : Int
deriving DecidableEq

/-- A row of the `notifications` table (primary key `(id, promise_id)`). -/
structure NotificationRow where
  id : String
  promiseId : String
  url : String
  retryPolicy : String
  time : Int
  attempt : Int
deriving DecidableEq

/-- A row of the `timeouts` table. -/
structure TimeoutRow where
  id : String
  time : Int
deriving DecidableEq

/-- The sqlite database state: the four tables. -/
structure DB where
  promises : List PromiseRow
  timeouts : List TimeoutRow
  subscriptions : List SubscriptionRow
  notifications : List NotificationRow
deriving DecidableEq

/-! ## SQL LIKE

`id LIKE ?` in `PROMISE_SEARCH_STATEMENT`: `%` matches any sequence, `_` any
single character; sqlite's LIKE is ASCII case-insensitive by default. -/

def likeMatch : List Char → List Char → Bool
  | [], [] => true
  | [], _ :: _ => false
  | '%' :: ps, [] => likeMatch ps []
  | '%' :: ps, c :: cs => likeMatch ps (c :: cs) || likeMatch ('%' :: ps) cs
  | '_' :: _, [] => false
  | '_' :: ps, _ :: cs => likeMatch ps cs
  | _ :: _, [] => false
  | p :: ps, c :: cs => (p.toLower == c.toLower) && likeMatch ps cs
termination_by ps cs => (cs.length, ps.length)

def sqlLike (pattern s : String) : Bool := likeMatch pattern.toList s.toList

/-! ## Store commands (`t_aio.Command` payloads used by `sqlite.go`) -/

structure ReadPromiseCommand where
  id : String
deriving DecidableEq

structure SearchPromisesCommand where
  q : String
  states : List State
  limit : Nat
  sortId : Option Int
deriving DecidableEq

structure CreatePromiseCommand where
  id : String
  param : Value
  timeout : Int
  idempotencyKey : Option String
  tags : Option Headers
  createdOn : Int
deriving DecidableEq

structure UpdatePromiseCommand where
  id : String
  state : State
  value : Value
  idempotencyKey : Option String
  completedOn : Int
deriving DecidableEq

structure TimeoutPromisesCommand where
  time : Int
deriving DecidableEq

structure CreateSubscriptionCommand where
  id : String
  promiseId : String
  url : String
  retryPolicy : Option String
  createdOn : Int
deriving DecidableEq

structure DeleteSubscriptionsCommand where
  promiseId : String
deriving DecidableEq

structure CreateNotificationsCommand where
  promiseId : String
  time : Int
deriving DecidableEq

/-- The command taxonomy, as in the `switch command.Kind` of
`performCommands` in `sqlite.go`. -/
inductive Command where
  | readPromise (cmd : ReadPromiseCommand)
  | searchPromises (cmd : SearchPromisesCommand)
  | createPromise (cmd : CreatePromiseCommand)
  | updatePromise (cmd : UpdatePromiseCommand)
  | timeoutPromises (cmd : TimeoutPromisesCommand)
  | readTimeouts (n : Nat)
  | createTimeout (id : String) (time : Int)
  | deleteTimeout (id : String)
  | readSubscription (id : String) (promiseId : String)
  | readSubscriptions (promiseId : String) (limit : Nat) (sortId : Option Int)
  | createSubscription (cmd : CreateSubscriptionCommand)
  | deleteSubscription (id : String) (promiseId : String)
  | deleteSubscriptions (cmd : DeleteSubscriptionsCommand)
  | timeoutDeleteSubscriptions (time : Int)
  | readNotifications (n : Nat)
  | createNotifications (cmd : CreateNotificationsCommand)
  | updateNotification (id : String) (promiseId : String) (time : Int) (attempt : Int)
  | deleteNotification (id : String) (promiseId : String)
  | timeoutCreateNotifications (time : Int)
deriving DecidableEq

/-- Per-command results (`t_aio.Result`): `rowsAffected` for writes,
`rowsReturned` plus records for reads. -/
inductive Result where
  | readPromise (rowsReturned : Nat) (records : List PromiseRow)
  | searchPromises (rowsReturned : Nat) (lastSortId : Int) (records : List PromiseRow)
  | createPromise (rowsAffected : Nat)
  | updatePromise (rowsAffected : Nat)
  | timeoutPromises (rowsAffected : Nat)
  | readTimeouts (rowsReturned : Nat) (records : List TimeoutRow)
  | createTimeout (rowsAffected : Nat)
  | deleteTimeout (rowsAffected : Nat)
  | readSubscription (rowsReturned : Nat) (records : List SubscriptionRow)
  | readSubscriptions (rowsReturned : Nat) (lastSortId : Int) (records : List SubscriptionRow)
  | createSubscription (rowsAffected : Nat)
  | deleteSubscription (rowsAffected : Nat)
  | deleteSubscriptions (rowsAffected : Nat)
  | timeoutDeleteSubscriptions (rowsAffected : Nat)
  | readNotifications (rowsReturned : Nat) (records : List NotificationRow)
  | createNotifications (rowsAffected : Nat)
  | updateNotification (rowsAffected : Nat)
  | deleteNotification (rowsAffected : Nat)
  | timeoutCreateNotifications (rowsAffected : Nat)
deriving DecidableEq

/-- Errors a store worker can report: an I/O failure from the database
driver, or a `util.Assert` violation (fatal in Go; modelled as a
distinguished error so that theorems can show the branch unreachable). -/
inductive StoreErr where
  | ioErr
  | assertFailed (msg : String)
deriving DecidableEq

/-! ## Sqlite store handlers

Each Go handler of `sqlite.go` becomes a function
`DB → Except StoreErr (DB × Result)`; the SQL statement it executes is
translated to the corresponding list transformation. -/

/-- Relation for `ORDER BY sort_id DESC` on promises. -/
def rowGE (a b : PromiseRow) : Prop := b.sortId ≤ a.sortId

/-- Strict version of `rowGE`; holds pairwise on results when sort ids are
distinct. -/
def rowGT (a b : PromiseRow) : Prop := b.sortId < a.sortId

instance : DecidableRel rowGE := fun a b => inferInstanceAs (Decidable (b.sortId ≤ a.sortId))

instance : DecidableRel rowGT := fun a b => inferInstanceAs (Decidable (b.sortId < a.sortId))

instance : IsTotal PromiseRow rowGE := ⟨fun a b => le_total b.sortId a.sortId⟩

instance : IsTrans PromiseRow rowGE := ⟨fun _ _ _ h1 h2 => le_trans h2 h1⟩

instance : IsTrans PromiseRow rowGT := ⟨fun _ _ _ h1 h2 => lt_trans h2 h1⟩

instance : IsAntisymm PromiseRow rowGT := ⟨fun _ _ h1 h2 => absurd (lt_trans h1 h2) (lt_irrefl _)⟩

def sortDesc (l : List PromiseRow) : List PromiseRow := l.insertionSort rowGE

/-- Statement `PROMISE_SELECT_STATEMENT`: `SELECT ... FROM promises WHERE id = ?`
(at most one row; `id` is UNIQUE). -/
def readPromise (db : DB) (cmd : ReadPromiseCommand) : Except StoreErr (DB × Result) :=
  match db.promises.find? (fun r => r.id == cmd.id) with
  | some r => .ok (db, .readPromise 1 [r])
  | none => .ok (db, .readPromise 0 [])

/-- Bitmask from the state list: `mask = mask | int(state)` folded over
`cmd.States`. -/
def searchMask (states : List State) : Nat := states.foldl (fun m s => m ||| s.toNat) 0

/-- Clause `(? IS NULL OR sort_id < ?)` of `PROMISE_SEARCH_STATEMENT`. -/
def cursorOk (sortId : Option Int) (r : PromiseRow) : Bool :=
  match sortId with
  | none => true
  | some c => r.sortId < c

/-- Clause `state & ? != 0 AND id LIKE ?` of `PROMISE_SEARCH_STATEMENT`. -/
def searchPred (mask : Nat) (pattern : String) (r : PromiseRow) : Bool :=
  r.state &&& mask != 0 && sqlLike pattern r.id

/-- Glob-to-LIKE translation: `strings.ReplaceAll(cmd.Q, "*", "%")`. -/
def globToLike (q : String) : String := q.replace ("*") ("%")

/-- The row list produced by `PROMISE_SEARCH_STATEMENT`: filter by cursor,
state mask and LIKE pattern, order by `sort_id` descending, limit. -/
def searchRows (db : DB) (cmd : SearchPromisesCommand) : List PromiseRow :=
  (sortDesc (db.promises.filter (fun r =>
    cursorOk cmd.sortId r && searchPred (searchMask cmd.states) (globToLike cmd.q) r))).take cmd.limit

/-- The `LastSortId` accumulation of `searchPromises`: the sort id of the last
record scanned, zero when no rows. -/
def lastSortIdOf (records : List PromiseRow) : Int := (records.map (·.sortId)).getLastD 0

def searchPromises (db : DB) (cmd : SearchPromisesCommand) : Except StoreErr (DB × Result) :=
  if cmd.q = "" then .error (.assertFailed ("query cannot be empty"))
  else if cmd.states = [] then .error (.assertFailed ("states cannot be empty"))
  else
    let records := searchRows db cmd
    .ok (db, .searchPromises records.length (lastSortIdOf records) records)

/-- Column `AUTOINCREMENT`: a fresh `sort_id` strictly above every existing one. -/
def nextSortId (sortIds : List Int) : Int := sortIds.foldl max 0 + 1

/-- Statement `PROMISE_INSERT_STATEMENT`: insert with `ON CONFLICT(id) DO NOTHING`;
value columns and `completed_on` start NULL, state starts Pending. -/
def createPromise (db : DB) (cmd : CreatePromiseCommand) : Except StoreErr (DB × Result) :=
  if cmd.param.headers = none then .error (.assertFailed ("headers must not be nil"))
  else if cmd.param.data = none then .error (.assertFailed ("data must not be nil"))
  else if cmd.tags = none then .error (.assertFailed ("tags must not be nil"))
  else if db.promises.any (fun r => r.id == cmd.id) then .ok (db, .createPromise 0)
  else
    let row : PromiseRow :=
      { id := cmd.id
        sortId := nextSortId (db.promises.map (·.sortId))
        state := State.toNat .pending
        paramHeaders := cmd.param.headers
        paramData := cmd.param.data
        valueHeaders := none
        valueData := none
        timeout := cmd.timeout
        idempotencyKeyForCreate := cmd.idempotencyKey
        idempotencyKeyForComplete := none
        tags := cmd.tags
        createdOn := some cmd.createdOn
        completedOn := none }
    .ok ({ db with promises := db.promises ++ [row] }, .createPromise 1)

/-- Clause `WHERE id = ? AND state = 1` of `PROMISE_UPDATE_STATMENT`. -/
def updMatch (cmd : UpdatePromiseCommand) (r : PromiseRow) : Bool :=
  r.id == cmd.id && r.state == 1

/-- The SET clause of `PROMISE_UPDATE_STATMENT`. -/
def updRow (cmd : UpdatePromiseCommand) (r : PromiseRow) : PromiseRow :=
  { r with
    state := cmd.state.toNat
    valueHeaders := cmd.value.headers
    valueData := cmd.value.data
    idempotencyKeyForComplete := cmd.idempotencyKey
    completedOn := some cmd.completedOn }

def updatePromise (db : DB) (cmd : UpdatePromiseCommand) : Except StoreErr (DB × Result) :=
  if ¬ cmd.state.isIn (State.toNat .resolved ||| State.toNat .rejected |||
      State.toNat .canceled ||| State.toNat .timedout) then
    .error (.assertFailed ("state must be canceled, resolved, rejected, or timedout"))
  else if cmd.value.headers = none then .error (.assertFailed ("value headers must not be nil"))
  else if cmd.value.data = none then .error (.assertFailed ("value data must not be nil"))
  else
    .ok ({ db with promises := db.promises.map (fun r => if updMatch cmd r then updRow cmd r else r) },
      .updatePromise (db.promises.countP (updMatch cmd)))

/-- Clause `WHERE state = 1 AND timeout <= ?` of `PROMISE_UPDATE_TIMEOUT_STATEMENT`. -/
def timeoutPred (t : Int) (r : PromiseRow) : Bool :=
  r.state == 1 && decide (r.timeout ≤ t)

/-- SET clause of `PROMISE_UPDATE_TIMEOUT_STATEMENT`:
`state = 8, completed_on = timeout`. -/
def timeoutRowUpd (r : PromiseRow) : PromiseRow :=
  { r with state := 8, completedOn := some r.timeout }

def timeoutPromises (db : DB) (cmd : TimeoutPromisesCommand) : Except StoreErr (DB × Result) :=
  if cmd.time < 0 then .error (.assertFailed ("time must be non-negative"))
  else
    .ok ({ db with promises := db.promises.map (fun r => if timeoutPred cmd.time r then timeoutRowUpd r else r) },
      .timeoutPromises (db.promises.countP (timeoutPred cmd.time)))

/-- Relation for `ORDER BY time ASC, id` on the timeouts table. -/
def timeoutRowLE (a b : TimeoutRow) : Prop :=
  a.time < b.time ∨ (a.time = b.time ∧ a.id ≤ b.id)

instance : DecidableRel timeoutRowLE := fun a b =>
  inferInstanceAs (Decidable (a.time < b.time ∨ (a.time = b.time ∧ a.id ≤ b.id)))

def readTimeouts (db : DB) (n : Nat) : Except StoreErr (DB × Result) :=
  let records := (db.timeouts.insertionSort timeoutRowLE).take n
  .ok (db, .readTimeouts records.length records)

def createTimeout (db : DB) (id : String) (time : Int) : Except StoreErr (DB × Result) :=
  if time < 0 then .error (.assertFailed ("time must be non-negative"))
  else if db.timeouts.any (fun r => r.id == id) then .ok (db, .createTimeout 0)
  else .ok ({ db with timeouts := db.timeouts ++ [{ id := id, time := time }] }, .createTimeout 1)

def deleteTimeout (db : DB) (id : String) : Except StoreErr (DB × Result) :=
  .ok ({ db with timeouts := db.timeouts.filter (fun r => r.id != id) },
    .deleteTimeout (db.timeouts.countP (fun r => r.id == id)))

def readSubscription (db : DB) (id promiseId : String) : Except StoreErr (DB × Result) :=
  match db.subscriptions.find? (fun s => s.id == id && s.promiseId == promiseId) with
  | some s => .ok (db, .readSubscription 1 [s])
  | none => .ok (db, .readSubscription 0 [])

/-- Relation for `ORDER BY sort_id DESC` on subscriptions. -/
def subGE (a b : SubscriptionRow) : Prop := b.sortId ≤ a.sortId

instance : DecidableRel subGE := fun a b => inferInstanceAs (Decidable (b.sortId ≤ a.sortId))

def readSubscriptions (db : DB) (promiseId : String) (limit : Nat) (sortId : Option Int) :
    Except StoreErr (DB × Result) :=
  let cursor : SubscriptionRow → Bool := fun s =>
    match sortId with
    | none => true
    | some c => s.sortId < c
  let records := ((db.subscriptions.filter (fun s =>
    cursor s && s.promiseId == promiseId)).insertionSort subGE).take limit
  .ok (db, .readSubscriptions records.length ((records.map (·.sortId)).getLastD 0) records)

def createSubscription (db : DB) (cmd : CreateSubscriptionCommand) : Except StoreErr (DB × Result) :=
  if cmd.retryPolicy = none then .error (.assertFailed ("retry policy must not be nil"))
  else if db.subscriptions.any (fun s => s.id == cmd.id && s.promiseId == cmd.promiseId) then
    .ok (db, .createSubscription 0)
  else
    let row : SubscriptionRow :=
      { id := cmd.id
        promiseId := cmd.promiseId
        sortId := nextSortId (db.subscriptions.map (·.sortId))
        url := cmd.url
        retryPolicy := cmd.retryPolicy.getD ("")
        createdOn := cmd.createdOn }
    .ok ({ db with subscriptions := db.subscriptions ++ [row] }, .createSubscription 1)

def deleteSubscription (db : DB) (id promiseId : String) : Except StoreErr (DB × Result) :=
  .ok ({ db with subscriptions := db.subscriptions.filter (fun s =>
      ¬ (s.id == id && s.promiseId == promiseId)) },
    .deleteSubscription (db.subscriptions.countP (fun s => s.id == id && s.promiseId == promiseId)))

/-- Statement `SUBSCRIPTION_DELETE_ALL_STATEMENT`: `DELETE FROM subscriptions WHERE
promise_id = ?`. -/
def deleteSubscriptions (db : DB) (cmd : DeleteSubscriptionsCommand) : Except StoreErr (DB × Result) :=
  .ok ({ db with subscriptions := db.subscriptions.filter (fun s => s.promiseId != cmd.promiseId) },
    .deleteSubscriptions (db.subscriptions.countP (fun s => s.promiseId == cmd.promiseId)))

/-- Subquery `SELECT id FROM promises WHERE state = 1 AND timeout <= ?`. -/
def pendingTimedOutIds (db : DB) (t : Int) : List String :=
  (db.promises.filter (timeoutPred t)).map (·.id)

def timeoutDeleteSubscriptions (db : DB) (t : Int) : Except StoreErr (DB × Result) :=
  if t < 0 then .error (.assertFailed ("time must be non-negative"))
  else
    .ok ({ db with subscriptions := db.subscriptions.filter (fun s =>
        ¬ (pendingTimedOutIds db t).contains s.promiseId) },
      .timeoutDeleteSubscriptions (db.subscriptions.countP (fun s =>
        (pendingTimedOutIds db t).contains s.promiseId)))

/-- Relation for `ORDER BY time ASC, promise_id, id` on notifications. -/
def notifRowLE (a b : NotificationRow) : Prop :=
  a.time < b.time ∨ (a.time = b.time ∧
    (a.promiseId < b.promiseId ∨ (a.promiseId = b.promiseId ∧ a.id ≤ b.id)))

instance : DecidableRel notifRowLE := fun a b =>
  inferInstanceAs (Decidable (a.time < b.time ∨ (a.time = b.time ∧
    (a.promiseId < b.promiseId ∨ (a.promiseId = b.promiseId ∧ a.id ≤ b.id)))))

def readNotifications (db : DB) (n : Nat) : Except StoreErr (DB × Result) :=
  let records := (db.notifications.insertionSort notifRowLE).take n
  .ok (db, .readNotifications records.length records)

/-- The `(id, promise_id)` primary-key predicate on notifications. -/
def notifKeyed (id promiseId : String) (n : NotificationRow) : Bool :=
  n.id == id && n.promiseId == promiseId

/-- The notification row inserted for subscription `s`:
`SELECT id, promise_id, url, retry_policy, ?, 0 FROM subscriptions`. -/
def mkNotif (t : Int) (s : SubscriptionRow) : NotificationRow :=
  { id := s.id, promiseId := s.promiseId, url := s.url, retryPolicy := s.retryPolicy,
    time := t, attempt := 0 }

/-- Semantics of `INSERT ... SELECT ... ON CONFLICT(id, promise_id) DO NOTHING`: insert a
notification per selected subscription, skipping rows whose key is taken. -/
def insertNotifRows (t : Int) (acc : List NotificationRow × Nat) (subs : List SubscriptionRow) :
    List NotificationRow × Nat :=
  subs.foldl (fun acc s =>
    if acc.1.any (notifKeyed s.id s.promiseId) then acc
    else (acc.1 ++ [mkNotif t s], acc.2 + 1)) acc

/-- Statement `NOTIFICATION_INSERT_STATEMENT`: one notification per subscription of the
given promise. -/
def createNotifications (db : DB) (cmd : CreateNotificationsCommand) : Except StoreErr (DB × Result) :=
  if cmd.time < 0 then .error (.assertFailed ("time must be non-negative"))
  else
    let inserted := insertNotifRows cmd.time (db.notifications, 0)
      (db.subscriptions.filter (fun s => s.promiseId == cmd.promiseId))
    .ok ({ db with notifications := inserted.1 }, .createNotifications inserted.2)

def updateNotification (db : DB) (id promiseId : String) (time : Int) (attempt : Int) :
    Except StoreErr (DB × Result) :=
  .ok ({ db with notifications := db.notifications.map (fun n =>
      if notifKeyed id promiseId n then { n with time := time, attempt := attempt } else n) },
    .updateNotification (db.notifications.countP (notifKeyed id promiseId)))

def deleteNotification (db : DB) (id promiseId : String) : Except StoreErr (DB × Result) :=
  .ok ({ db with notifications := db.notifications.filter (fun n => ¬ notifKeyed id promiseId n) },
    .deleteNotification (db.notifications.countP (notifKeyed id promiseId)))

/-- Statement `NOTIFICATION_INSERT_TIMEOUT_STATEMENT`: one notification per
subscription of every Pending promise with `timeout <= t`. -/
def timeoutCreateNotifications (db : DB) (t : Int) : Except StoreErr (DB × Result) :=
  if t < 0 then .error (.assertFailed ("time must be non-negative"))
  else
    let inserted := insertNotifRows t (db.notifications, 0)
      (db.subscriptions.filter (fun s => (pendingTimedOutIds db t).contains s.promiseId))
    .ok ({ db with notifications := inserted.1 }, .timeoutCreateNotifications inserted.2)

/-- Dispatch, as the `switch command.Kind` in `performCommands`. -/
def applyCommand (db : DB) : Command → Except StoreErr (DB × Result)
  | .readPromise cmd => readPromise db cmd
  | .searchPromises cmd => searchPromises db cmd
  | .createPromise cmd => createPromise db cmd
  | .updatePromise cmd => updatePromise db cmd
  | .timeoutPromises cmd => timeoutPromises db cmd
  | .readTimeouts n => readTimeouts db n
  | .createTimeout id time => createTimeout db id time
  | .deleteTimeout id => deleteTimeout db id
  | .readSubscription id promiseId => readSubscription db id promiseId
  | .readSubscriptions promiseId limit sortId => readSubscriptions db promiseId limit sortId
  | .createSubscription cmd => createSubscription db cmd
  | .deleteSubscription id promiseId => deleteSubscription db id promiseId
  | .deleteSubscriptions cmd => deleteSubscriptions db cmd
  | .timeoutDeleteSubscriptions t => timeoutDeleteSubscriptions db t
  | .readNotifications n => readNotifications db n
  | .createNotifications cmd => createNotifications db cmd
  | .updateNotification id promiseId time attempt => updateNotification db id promiseId time attempt
  | .deleteNotification id promiseId => deleteNotification db id promiseId
  | .timeoutCreateNotifications t => timeoutCreateNotifications db t

structure Transaction where
  commands : List Command
deriving DecidableEq

/-- Run one transaction's commands in order, aborting on the first error.
`fl` is an oracle of injected database-driver failures, one entry consumed
per command (`true` means that command's `Exec`/`Query` returns an error). -/
def performCmds (fl : List Bool) (db : DB) : List Command → Except StoreErr (DB × List Result × List Bool)
  | [] => .ok (db, [], fl)
  | c :: cs =>
    if fl.headD false then .error .ioErr
    else
      match applyCommand db c with
      | .error e => .error e
      | .ok (db1, r) =>
        match performCmds fl.tail db1 cs with
        | .error e => .error e
        | .ok (db2, rs, fl2) => .ok (db2, r :: rs, fl2)

/-- Run every transaction's commands, as the loop of Go `performCommands`
(which asserts each transaction is non-empty). -/
def performTxns (fl : List Bool) (db : DB) : List Transaction → Except StoreErr (DB × List (List Result) × List Bool)
  | [] => .ok (db, [], fl)
  | t :: ts =>
    if t.commands = [] then .error (.assertFailed ("expected a command"))
    else
      match performCmds fl db t.commands with
      | .error e => .error e
      | .ok (db1, rs, fl1) =>
        match performTxns fl1 db1 ts with
        | .error e => .error e
        | .ok (db2, rss, fl2) => .ok (db2, rs :: rss, fl2)

def performCommands (fl : List Bool) (db : DB) (txns : List Transaction) :
    Except StoreErr (DB × List (List Result)) :=
  match performTxns fl db txns with
  | .error e => .error e
  | .ok (db1, rss, _) => .ok (db1, rss)

/-- Function `Execute` of the sqlite worker: open one database transaction, run all
commands, roll back (returning the untouched database and the error) if any
command fails, commit otherwise. -/
def Execute (fl : List Bool) (db : DB) (txns : List Transaction) :
    DB × Except StoreErr (List (List Result)) :=
  if txns = [] then (db, .error (.assertFailed ("expected a transaction")))
  else
    match performCommands fl db txns with
    | .error e => (db, .error e)
    | .ok (db1, rss) => (db1, .ok rss)

/-! ## Promise coroutines

The kernel-level view of a promise (`pkg/promise.Promise`), the request
payloads, and the decision logic of the `ReadPromise` and `RejectPromise`
coroutines of the coroutines package.  A coroutine's reaction to the data it
has read is embedded as a function into an `Action` type: respond through the
response callback, spawn the `TimeoutPromise` coroutine (carrying the retry
coroutine it passes along and the response its success callback sends), or
submit a store transaction and continue. -/

/-- The parsed promise as the coroutines see it (`pkg/promise.Promise`).
`CreatedOn`/`CompletedOn` are nullable in Go. -/
structure Promise where
  id : String
  state : State
  param : Value
  value : Value
  timeout : Int
  idempotencyKeyForCreate : Option String
  idempotencyKeyForComplete : Option String
  tags : Headers
  createdOn : Option Int
  completedOn : Option Int
deriving DecidableEq

/-- Modelled from the spec: the `IdempotencyKey.Match` predicate of the
`pkg/promise` package is not among the provided sources.  Spec section 3
invariant 5 lets a re-submitted completion succeed when its `idempotencyKey`
equals the stored `idempotencyKeyForComplete`; keys are nullable and an
absent key matches nothing. -/
def ikeyMatch : Option String → Option String → Bool
  | some a, some b => a == b
  | _, _ => false

/-- Response statuses (`t_api.ResponseOK` etc., mapped to HTTP). -/
inductive Status where
  | ok
  | created
  | forbidden
  | notFound
deriving DecidableEq

structure PromiseResponse where
  status : Status
  promise : Option Promise
deriving DecidableEq

structure ReadPromiseReq where
  id : String
deriving DecidableEq

structure RejectPromiseReq where
  id : String
  idempotencyKey : Option String
  strict : Bool
  value : Value
deriving DecidableEq

/-- A coroutine handed to `s.Add` as the retry continuation of
`TimeoutPromise`. -/
inductive Respawn where
  | rejectPromise (req : RejectPromiseReq)
  | readPromise (req : ReadPromiseReq)
deriving DecidableEq

/-- The nil-normalisation `RejectPromise` performs on its request value
before issuing any submission: a nil header map becomes the empty map, nil
data becomes the empty byte slice. -/
def normalizeValue (v : Value) : Value :=
  { headers := match v.headers with | none => some [] | some h => some h
    data := match v.data with | none => some [] | some d => some d }

def normalizeReject (req : RejectPromiseReq) : RejectPromiseReq :=
  { req with value := normalizeValue req.value }

/-- What `RejectPromise` does once the read completes without error. -/
inductive RejectReadAction where
  | respond (resp : PromiseResponse)
  | spawnTimeout (p : Promise) (retry : Respawn) (onCommit : PromiseResponse)
  | submitUpdate (completedOn : Int) (txn : Transaction) (p : Promise)
deriving DecidableEq

/-- The timed-out snapshot `RejectPromise` returns from the timeout path:
state `Timedout`, empty value headers and data, `completedOn` set to the
promise's own timeout. -/
def timedoutSnapshotReject (p : Promise) : Promise :=
  { id := p.id
    state := .timedout
    param := p.param
    value := { headers := some [], data := some [] }
    timeout := p.timeout
    idempotencyKeyForCreate := p.idempotencyKeyForCreate
    idempotencyKeyForComplete := p.idempotencyKeyForComplete
    tags := p.tags
    createdOn := p.createdOn
    completedOn := some p.timeout }

/-- The single store transaction the rejection path submits:
`UpdatePromise` (to `Rejected`), `CreateNotifications`, and
`DeleteSubscriptions`, all for the request's promise id, with
`completedOn = s.Time()`. -/
def rejectUpdateTxn (req : RejectPromiseReq) (completedOn : Int) : Transaction :=
  { commands := [
      .updatePromise
        { id := req.id
          state := .rejected
          value := req.value
          idempotencyKey := req.idempotencyKey
          completedOn := completedOn },
      .createNotifications { promiseId := req.id, time := completedOn },
      .deleteSubscriptions { promiseId := req.id } ] }

/-- The branch on the read result in `RejectPromise` (part_003 lines 50-183),
with `req` already nil-normalised and `time = s.Time()`. -/
def rejectAfterRead (req : RejectPromiseReq) (time : Int) (found : Option Promise) : RejectReadAction :=
  match found with
  | none => .respond { status := .notFound, promise := none }
  | some p =>
    if p.state = .pending then
      if time ≥ p.timeout then
        .spawnTimeout p (.rejectPromise req)
          { status := .forbidden, promise := some (timedoutSnapshotReject p) }
      else
        .submitUpdate time (rejectUpdateTxn req time) p
    else
      let strict := req.strict && p.state != State.rejected
      let status := if !strict && ikeyMatch p.idempotencyKeyForComplete req.idempotencyKey
        then Status.ok else Status.forbidden
      .respond { status := status, promise := some p }

/-- What `RejectPromise` does once the update transaction completes without
error. -/
inductive RejectUpdateAction where
  | respond (resp : PromiseResponse)
  | retry (respawn : Respawn)
deriving DecidableEq

/-- The promise returned with 201 Created after a successful rejection. -/
def rejectedPromiseResp (req : RejectPromiseReq) (p : Promise) (completedOn : Int) : Promise :=
  { id := p.id
    state := .rejected
    param := p.param
    value := req.value
    timeout := p.timeout
    idempotencyKeyForCreate := p.idempotencyKeyForCreate
    idempotencyKeyForComplete := req.idempotencyKey
    tags := p.tags
    createdOn := p.createdOn
    completedOn := some completedOn }

/-- The branch on `RowsAffected` in `RejectPromise` (part_003 lines 143-164):
1 means the CAS succeeded, anything else respawns the whole coroutine. -/
def rejectAfterUpdate (req : RejectPromiseReq) (p : Promise) (completedOn : Int)
    (rowsAffected : Nat) : RejectUpdateAction :=
  if rowsAffected = 1 then
    .respond { status := .created, promise := some (rejectedPromiseResp req p completedOn) }
  else
    .retry (.rejectPromise req)

/-- What `ReadPromise` does once the read completes without error. -/
inductive ReadAction where
  | respond (resp : PromiseResponse)
  | spawnTimeout (p : Promise) (retry : Respawn) (onCommit : PromiseResponse)
deriving DecidableEq

/-- The timed-out snapshot `ReadPromise` returns from the lazy-timeout path
(part_002 lines 70-84): empty value headers, nil data. -/
def timedoutSnapshotRead (p : Promise) : Promise :=
  { id := p.id
    state := .timedout
    param := p.param
    value := { headers := some [], data := none }
    timeout := p.timeout
    idempotencyKeyForCreate := p.idempotencyKeyForCreate
    idempotencyKeyForComplete := p.idempotencyKeyForComplete
    tags := p.tags
    createdOn := p.createdOn
    completedOn := some p.timeout }

/-- The branch on the read result in `ReadPromise` (part_002 lines 43-97). -/
def readAfterRead (req : ReadPromiseReq) (time : Int) (found : Option Promise) : ReadAction :=
  match found with
  | none => .respond { status := .notFound, promise := none }
  | some p =>
    if p.state = .pending ∧ time ≥ p.timeout then
      .spawnTimeout p (.readPromise req)
        { status := .ok, promise := some (timedoutSnapshotRead p) }
    else
      .respond { status := .ok, promise := some p }

/-! ## Sample data (used by witness theorems) -/

def emptyValue : Value := { headers := some [], data := some [] }

def pPending : Promise :=
  { id := "p1"
    state := .pending
    param := emptyValue
    value := { headers := none, data := none }
    timeout := 100
    idempotencyKeyForCreate := none
    idempotencyKeyForComplete := none
    tags := []
    createdOn := some 0
    completedOn := none }

def pResolved : Promise :=
  { pPending with state := .resolved, idempotencyKeyForComplete := some ("k"), completedOn := some 50 }

def reqReject : RejectPromiseReq :=
  { id := "p1", idempotencyKey := some ("k"), strict := false, value := { headers := none, data := none } }

def rowPending : PromiseRow :=
  { id := "p1"
    sortId := 1
    state := 1
    paramHeaders := some []
    paramData := some []
    valueHeaders := none
    valueData := none
    timeout := 100
    idempotencyKeyForCreate := none
    idempotencyKeyForComplete := none
    tags := some []
    createdOn := some 0
    completedOn := none }

def dbSample : DB :=
  { promises := [rowPending]
    timeouts := []
    subscriptions := [{ id := "s1", promiseId := "p1", sortId := 1, url := "http://x",
                        retryPolicy := "rp", createdOn := 0 }]
    notifications := [] }

/-! ## Theorems -/

/-- C3: a `RejectPromise` request on a promise whose stored state is already
terminal issues no write and responds with the stored promise unchanged; the
status is 200 OK iff the stored `idempotencyKeyForComplete` matches the
request key and (strict is false or the stored state is Rejected), and 403
Forbidden otherwise. -/
theorem c3_reject_terminal (req : RejectPromiseReq) (time : Int) (p : Promise)
    (hterm : p.state ≠ State.pending) :
    ∃ st, rejectAfterRead req time (some p) = .respond { status := st, promise := some p } ∧
      (st = Status.ok ↔
        (ikeyMatch p.idempotencyKeyForComplete req.idempotencyKey = true ∧
          (req.strict = false ∨ p.state = State.rejected))) ∧
      (st = Status.ok ∨ st = Status.forbidden) := by
  refine ⟨if !(req.strict && p.state != State.rejected) &&
      ikeyMatch p.idempotencyKeyForComplete req.idempotencyKey
    then Status.ok else Status.forbidden, ?_, ?_, ?_⟩
  · simp only [rejectAfterRead, if_neg hterm]
  · by_cases hm : ikeyMatch p.idempotencyKeyForComplete req.idempotencyKey = true <;>
      by_cases hs : req.strict = true <;>
      by_cases hr : p.state = State.rejected <;>
      simp_all
  · by_cases h : (!(req.strict && p.state != State.rejected) &&
      ikeyMatch p.idempotencyKeyForComplete req.idempotencyKey) = true <;> simp [h]

theorem c3_reject_terminal_witness :
    pResolved.state ≠ State.pending ∧
    (∃ st, rejectAfterRead reqReject 5 (some pResolved) = .respond { status := st, promise := some pResolved } ∧
      (st = Status.ok ↔
        (ikeyMatch pResolved.idempotencyKeyForComplete reqReject.idempotencyKey = true ∧
          (reqReject.strict = false ∨ pResolved.state = State.rejected))) ∧
      (st = Status.ok ∨ st = Status.forbidden)) :=
  ⟨by decide, c3_reject_terminal reqReject 5 pResolved (by decide)⟩

/-- C5: `ReadPromise`, when the promise is found: a Pending promise past its
timeout triggers the `TimeoutPromise` coroutine and, on its success, a 200 OK
response carrying a synthesized Timedout snapshot with
`completedOn = timeout`; otherwise the stored promise is returned with 200
OK. -/
theorem c5_read_lazy_timeout (req : ReadPromiseReq) (time : Int) (p : Promise) :
    (p.state = State.pending → time ≥ p.timeout →
      readAfterRead req time (some p) = .spawnTimeout p (.readPromise req)
        { status := .ok, promise := some (timedoutSnapshotRead p) } ∧
      (timedoutSnapshotRead p).state = State.timedout ∧
      (timedoutSnapshotRead p).completedOn = some p.timeout) ∧
    (¬ (p.state = State.pending ∧ time ≥ p.timeout) →
      readAfterRead req time (some p) = .respond { status := .ok, promise := some p }) := by
  constructor
  · intro h1 h2
    refine ⟨?_, rfl, rfl⟩
    simp only [readAfterRead, if_pos (And.intro h1 h2)]
  · intro h
    simp only [readAfterRead, if_neg h]

theorem c5_read_lazy_timeout_witness :
    readAfterRead { id := "p1" } 150 (some pPending) = .spawnTimeout pPending (.readPromise { id := "p1" })
      { status := .ok, promise := some (timedoutSnapshotRead pPending) } ∧
    (timedoutSnapshotRead pPending).state = State.timedout ∧
    (timedoutSnapshotRead pPending).completedOn = some pPending.timeout :=
  (c5_read_lazy_timeout { id := "p1" } 150 pPending).1 (by decide) (by decide)

/-- C6: `RejectPromise` on a Pending promise with `Time() >= timeout` does
not reject: it spawns `TimeoutPromise` with a respawned `RejectPromise` as
the retry continuation, and responds 403 Forbidden with the timed-out
snapshot (state Timedout, `completedOn = timeout`, empty value headers and
data). -/
theorem c6_reject_timeout_path (req : RejectPromiseReq) (time : Int) (p : Promise)
    (hpend : p.state = State.pending) (ht : time ≥ p.timeout) :
    rejectAfterRead req time (some p) = .spawnTimeout p (.rejectPromise req)
      { status := .forbidden, promise := some (timedoutSnapshotReject p) } ∧
    (timedoutSnapshotReject p).state = State.timedout ∧
    (timedoutSnapshotReject p).completedOn = some p.timeout ∧
    (timedoutSnapshotReject p).value = { headers := some [], data := some [] } := by
  refine ⟨?_, rfl, rfl, rfl⟩
  simp only [rejectAfterRead, if_pos hpend, if_pos ht]

/-- A list whose entries pairwise exclude joint satisfaction of `p` holds at
most one `p`-satisfying entry. -/
theorem aux_countP_le_one {α : Type} {p : α → Bool} :
    ∀ {l : List α}, l.Pairwise (fun a b => ¬ (p a = true ∧ p b = true)) → l.countP p ≤ 1 := by
  intro l
  induction l with
  | nil => intro _; simp
  | cons a l ih =>
    intro h
    rw [List.pairwise_cons] at h
    by_cases ha : p a = true
    · have hz : l.countP p = 0 := by
        rw [List.countP_eq_zero]
        intro b hb hpb
        exact h.1 b hb ⟨ha, hpb⟩
      simp [List.countP_cons, ha, hz]
    · simp only [List.countP_cons, ha, if_false]
      simpa using ih h.2

theorem aux_countP_eq_one {α : Type} {p : α → Bool} {l : List α}
    (h : l.Pairwise (fun a b => ¬ (p a = true ∧ p b = true)))
    (hex : ∃ a ∈ l, p a = true) : l.countP p = 1 := by
  refine le_antisymm (aux_countP_le_one h) ?_
  have hpos : 0 < l.countP p := List.countP_pos_iff.mpr hex
  omega

theorem aux_map_id_of_no_match {α : Type} (f : α → α) (p : α → Bool) :
    ∀ (l : List α), (∀ a ∈ l, p a = false) →
      l.map (fun a => if p a then f a else a) = l := by
  intro l
  induction l with
  | nil => intro _; rfl
  | cons a l ih =>
    intro h
    have ha := h a (List.mem_cons_self a l)
    have ht := ih (fun b hb => h b (List.mem_cons_of_mem a hb))
    simp [ha, ht]

theorem c6_reject_timeout_path_witness :
    rejectAfterRead reqReject 150 (some pPending) = .spawnTimeout pPending (.rejectPromise reqReject)
      { status := .forbidden, promise := some (timedoutSnapshotReject pPending) } ∧
    (timedoutSnapshotReject pPending).state = State.timedout ∧
    (timedoutSnapshotReject pPending).completedOn = some pPending.timeout ∧
    (timedoutSnapshotReject pPending).value = { headers := some [], data := some [] } :=
  c6_reject_timeout_path reqReject 150 pPending (by decide) (by decide)

theorem c2_timeout_promises (db : DB) (t : Int) (ht : 0 ≤ t) :
    ∃ db2 k, timeoutPromises db { time := t } = .ok (db2, .timeoutPromises k) ∧
      db2.timeouts = db.timeouts ∧ db2.subscriptions = db.subscriptions ∧
      db2.notifications = db.notifications ∧
      db2.promises.length = db.promises.length ∧
      (∀ i (hi : i < db.promises.length) (hi2 : i < db2.promises.length),
        (db.promises[i].state = 1 ∧ db.promises[i].timeout ≤ t →
          db2.promises[i] =
            { (db.promises[i]) with state := 8, completedOn := some ((db.promises[i]).timeout) }) ∧
        (¬ (db.promises[i].state = 1 ∧ db.promises[i].timeout ≤ t) →
          db2.promises[i] = db.promises[i])) ∧
      k = (db.promises.filter (timeoutPred t)).length := by
  have hneg : ¬ t < 0 := not_lt.mpr ht
  refine ⟨{ db with promises := db.promises.map (fun r => if timeoutPred t r then timeoutRowUpd r else r) },
    db.promises.countP (timeoutPred t), ?_, rfl, rfl, rfl, ?_, ?_, ?_⟩
  · simp only [timeoutPromises, if_neg hneg]
  · simp
  · intro i hi hi2
    constructor
    · intro hcond
      have hb : timeoutPred t db.promises[i] = true := by
        simp [timeoutPred, hcond.1, hcond.2]
      simp [List.getElem_map, hb, timeoutRowUpd]
    · intro hcond
      have hb : timeoutPred t db.promises[i] = false := by
        simp only [timeoutPred]
        by_cases h1 : db.promises[i].state = 1 <;>
          by_cases h2 : db.promises[i].timeout ≤ t <;> simp_all
      simp [List.getElem_map, hb]
  · exact List.countP_eq_length_filter _ _

theorem c2_timeout_promises_witness :
    (0:Int) ≤ 150 ∧
    (∃ db2 k, timeoutPromises dbSample { time := 150 } = .ok (db2, .timeoutPromises k) ∧
      db2.timeouts = dbSample.timeouts ∧ db2.subscriptions = dbSample.subscriptions ∧
      db2.notifications = dbSample.notifications ∧
      db2.promises.length = dbSample.promises.length ∧
      (∀ i (hi : i < dbSample.promises.length) (hi2 : i < db2.promises.length),
        (dbSample.promises[i].state = 1 ∧ dbSample.promises[i].timeout ≤ 150 →
          db2.promises[i] =
            { (dbSample.promises[i]) with state := 8, completedOn := some ((dbSample.promises[i]).timeout) }) ∧
        (¬ (dbSample.promises[i].state = 1 ∧ dbSample.promises[i].timeout ≤ 150) →
          db2.promises[i] = dbSample.promises[i])) ∧
      k = (dbSample.promises.filter (timeoutPred 150)).length) :=
  ⟨by decide, c2_timeout_promises dbSample 150 (by decide)⟩

/-- Assertion `cmd.State.In(Resolved|Rejected|Canceled|Timedout)` holds exactly for the
non-Pending states. -/
theorem aux_state_isIn_terminal (s : State) (h : s ≠ State.pending) :
    s.isIn (State.toNat .resolved ||| State.toNat .rejected |||
      State.toNat .canceled ||| State.toNat .timedout) = true := by
  cases s with
  | pending => exact absurd rfl h
  | resolved => decide
  | rejected => decide
  | timedout => decide
  | canceled => decide

theorem c1_update_promise_cas (db : DB) (cmd : UpdatePromiseCommand)
    (hids : db.promises.Pairwise (fun a b => a.id ≠ b.id))
    (hstate : cmd.state ≠ State.pending)
    (hh : cmd.value.headers ≠ none) (hd : cmd.value.data ≠ none) :
    ∃ db2 k, updatePromise db cmd = .ok (db2, .updatePromise k) ∧
      ((∃ r ∈ db.promises, r.id = cmd.id ∧ r.state = 1) →
        k = 1 ∧
        db2.promises = db.promises.map (fun r => if updMatch cmd r then updRow cmd r else r) ∧
        ∀ r ∈ db.promises, r.id = cmd.id → r.state = 1 →
          (updRow cmd r).state = cmd.state.toNat ∧
          (updRow cmd r).valueHeaders = cmd.value.headers ∧
          (updRow cmd r).valueData = cmd.value.data ∧
          (updRow cmd r).idempotencyKeyForComplete = cmd.idempotencyKey ∧
          (updRow cmd r).completedOn = some cmd.completedOn) ∧
      ((∀ r ∈ db.promises, ¬ (r.id = cmd.id ∧ r.state = 1)) → k = 0 ∧ db2 = db) ∧
      (∀ req p c, rejectAfterUpdate req p c 0 = .retry (.rejectPromise req)) ∧
      (∀ req p c, rejectAfterUpdate req p c 1 =
        .respond { status := .created, promise := some (rejectedPromiseResp req p c) }) := by
  have hIn := aux_state_isIn_terminal cmd.state hstate
  refine ⟨{ db with promises := db.promises.map (fun r => if updMatch cmd r then updRow cmd r else r) },
    db.promises.countP (updMatch cmd), ?_, ?_, ?_, ?_, ?_⟩
  · simp only [updatePromise, hIn, not_true_eq_false, if_false, if_neg hh, if_neg hd]
  · rintro ⟨r, hr, hrid, hrstate⟩
    refine ⟨?_, rfl, ?_⟩
    · apply aux_countP_eq_one
      · refine hids.imp ?_
        intro a b hab ⟨hpa, hpb⟩
        simp only [updMatch, Bool.and_eq_true, beq_iff_eq] at hpa hpb
        exact hab (hpa.1.trans hpb.1.symm)
      · exact ⟨r, hr, by simp [updMatch, hrid, hrstate]⟩
    · intro r2 _ h1 h2
      exact ⟨rfl, rfl, rfl, rfl, rfl⟩
  · intro hnone
    have hzero : ∀ r ∈ db.promises, updMatch cmd r = false := by
      intro r hr
      have := hnone r hr
      simp only [updMatch, Bool.and_eq_false_iff]
      by_cases h1 : r.id = cmd.id <;> by_cases h2 : r.state = 1 <;> simp_all
    refine ⟨List.countP_eq_zero.mpr (by intro a ha; simp [hzero a ha]), ?_⟩
    have := aux_map_id_of_no_match (updRow cmd) (updMatch cmd) db.promises hzero
    simp only [this]
  · intro req p c
    simp [rejectAfterUpdate]
  · intro req p c
    simp [rejectAfterUpdate]

def cmdUpd : UpdatePromiseCommand :=
  { id := "p1", state := .rejected, value := emptyValue, idempotencyKey := some ("k"), completedOn := 42 }

theorem c1_update_promise_cas_witness :
    dbSample.promises.Pairwise (fun a b => a.id ≠ b.id) ∧
    cmdUpd.state ≠ State.pending ∧
    cmdUpd.value.headers ≠ none ∧ cmdUpd.value.data ≠ none ∧
    (∃ db2 k, updatePromise dbSample cmdUpd = .ok (db2, .updatePromise k) ∧
      ((∃ r ∈ dbSample.promises, r.id = cmdUpd.id ∧ r.state = 1) →
        k = 1 ∧
        db2.promises = dbSample.promises.map (fun r => if updMatch cmdUpd r then updRow cmdUpd r else r) ∧
        ∀ r ∈ dbSample.promises, r.id = cmdUpd.id → r.state = 1 →
          (updRow cmdUpd r).state = cmdUpd.state.toNat ∧
          (updRow cmdUpd r).valueHeaders = cmdUpd.value.headers ∧
          (updRow cmdUpd r).valueData = cmdUpd.value.data ∧
          (updRow cmdUpd r).idempotencyKeyForComplete = cmdUpd.idempotencyKey ∧
          (updRow cmdUpd r).completedOn = some cmdUpd.completedOn) ∧
      ((∀ r ∈ dbSample.promises, ¬ (r.id = cmdUpd.id ∧ r.state = 1)) → k = 0 ∧ db2 = dbSample) ∧
      (∀ req p c, rejectAfterUpdate req p c 0 = .retry (.rejectPromise req)) ∧
      (∀ req p c, rejectAfterUpdate req p c 1 =
        .respond { status := .created, promise := some (rejectedPromiseResp req p c) })) :=
  ⟨by simp [dbSample], by decide, by decide, by decide,
    c1_update_promise_cas dbSample cmdUpd (by simp [dbSample]) (by decide) (by decide) (by decide)⟩

/-- C10 (implicit): `RejectPromise` nil-normalises its request value before
issuing any submission, so every `UpdatePromise` command it produces carries
non-nil value headers and data, and the store-layer nil asserts in
`updatePromise` cannot fire on this path. -/
theorem c10_reject_normalization (req : RejectPromiseReq) :
    (normalizeReject req).value.headers ≠ none ∧
    (normalizeReject req).value.data ≠ none ∧
    (∀ (time c : Int) (p q : Promise) (txn : Transaction),
      rejectAfterRead (normalizeReject req) time (some p) = .submitUpdate c txn q →
      ∀ cmd, Command.updatePromise cmd ∈ txn.commands →
        cmd.value.headers ≠ none ∧ cmd.value.data ≠ none ∧
        ∀ db : DB, ∃ out, updatePromise db cmd = .ok out) := by
  have hh : (normalizeReject req).value.headers ≠ none := by
    simp only [normalizeReject, normalizeValue]
    cases req.value.headers <;> simp
  have hd : (normalizeReject req).value.data ≠ none := by
    simp only [normalizeReject, normalizeValue]
    cases req.value.data <;> simp
  refine ⟨hh, hd, ?_⟩
  intro time c p q txn heq cmd hmem
  have htxn : txn = rejectUpdateTxn (normalizeReject req) time := by
    simp only [rejectAfterRead] at heq
    split at heq
    · split at heq
      · simp at heq
      · cases heq
        rfl
    · simp at heq
  subst htxn
  simp only [rejectUpdateTxn, List.mem_cons, List.not_mem_nil, or_false] at hmem
  rcases hmem with hmem | hmem | hmem
  · have hcmd : cmd =
        { id := (normalizeReject req).id
          state := .rejected
          value := (normalizeReject req).value
          idempotencyKey := (normalizeReject req).idempotencyKey
          completedOn := time } := by
      cases hmem
      rfl
    subst hcmd
    refine ⟨hh, hd, ?_⟩
    intro db
    simp only [updatePromise]
    rw [if_neg (by simp [aux_state_isIn_terminal State.rejected (by simp)]), if_neg hh, if_neg hd]
    exact ⟨_, rfl⟩
  · simp at hmem
  · simp at hmem

def nreqSample : RejectPromiseReq := normalizeReject reqReject

def ucmdSample : UpdatePromiseCommand :=
  { id := nreqSample.id, state := .rejected, value := nreqSample.value,
    idempotencyKey := nreqSample.idempotencyKey, completedOn := 5 }

theorem c10_reject_normalization_witness :
    rejectAfterRead nreqSample 5 (some pPending) =
      .submitUpdate 5 (rejectUpdateTxn nreqSample 5) pPending ∧
    Command.updatePromise ucmdSample ∈ (rejectUpdateTxn nreqSample 5).commands ∧
    ucmdSample.value.headers ≠ none ∧ ucmdSample.value.data ≠ none ∧
    ∃ out, updatePromise dbSample ucmdSample = .ok out := by
  have h := (c10_reject_normalization reqReject).2.2 5 5 pPending pPending
    (rejectUpdateTxn nreqSample 5) (by decide) ucmdSample (by decide)
  exact ⟨by decide, by decide, h.1, h.2.1, h.2.2 dbSample⟩

/-- C7: a store `Execute` call is all-or-nothing: an error from any command
rolls the whole batch back (database unchanged, error returned, no results);
only full success commits and returns per-command results.  The rejection
path issues its `UpdatePromise`, `CreateNotifications` and
`DeleteSubscriptions` as the command list of one single transaction. -/
theorem c7_execute_atomic (fl : List Bool) (db : DB) (txns : List Transaction) :
    (∀ e, performCommands fl db txns = .error e → Execute fl db txns = (db, .error e)) ∧
    (∀ db1 rss, txns ≠ [] → performCommands fl db txns = .ok (db1, rss) →
      Execute fl db txns = (db1, .ok rss)) ∧
    (∀ (req : RejectPromiseReq) (c : Int), (rejectUpdateTxn req c).commands =
      [ Command.updatePromise
          { id := req.id
            state := .rejected
            value := req.value
            idempotencyKey := req.idempotencyKey
            completedOn := c },
        Command.createNotifications { promiseId := req.id, time := c },
        Command.deleteSubscriptions { promiseId := req.id } ]) ∧
    (∀ (req : RejectPromiseReq) (time c : Int) (p q : Promise) (txn : Transaction),
      rejectAfterRead req time (some p) = .submitUpdate c txn q → txn = rejectUpdateTxn req c) := by
  refine ⟨?_, ?_, ?_, ?_⟩
  · intro e he
    by_cases htx : txns = []
    · subst htx
      simp [performCommands, performTxns] at he
    · simp only [Execute, if_neg htx, he]
  · intro db1 rss htx hok
    simp only [Execute, if_neg htx, hok]
  · intro req c
    rfl
  · intro req time c p q txn heq
    simp only [rejectAfterRead] at heq
    split at heq
    · split at heq
      · simp at heq
      · cases heq
        rfl
    · simp at heq

def rowRejected : PromiseRow :=
  { rowPending with
    state := 4
    valueHeaders := some []
    valueData := some []
    idempotencyKeyForComplete := some ("k")
    completedOn := some 5 }

def notifSample : NotificationRow :=
  { id := "s1", promiseId := "p1", url := "http://x", retryPolicy := "rp", time := 5, attempt := 0 }

def dbAfterReject : DB :=
  { promises := [rowRejected]
    timeouts := []
    subscriptions := []
    notifications := [notifSample] }

theorem c7_execute_atomic_witness :
    performCommands [true] dbSample [rejectUpdateTxn nreqSample 5] = .error .ioErr ∧
    Execute [true] dbSample [rejectUpdateTxn nreqSample 5] = (dbSample, .error .ioErr) ∧
    performCommands [] dbSample [rejectUpdateTxn nreqSample 5] =
      .ok (dbAfterReject, [[.updatePromise 1, .createNotifications 1, .deleteSubscriptions 1]]) ∧
    Execute [] dbSample [rejectUpdateTxn nreqSample 5] =
      (dbAfterReject, .ok [[.updatePromise 1, .createNotifications 1, .deleteSubscriptions 1]]) := by
  have h1 : performCommands [true] dbSample [rejectUpdateTxn nreqSample 5] =
      .error .ioErr := by decide
  have h3 : performCommands [] dbSample [rejectUpdateTxn nreqSample 5] =
      .ok (dbAfterReject, [[.updatePromise 1, .createNotifications 1, .deleteSubscriptions 1]]) := by
    decide
  have htx : ([rejectUpdateTxn nreqSample 5] : List Transaction) ≠ [] := by decide
  exact ⟨h1, (c7_execute_atomic [true] dbSample [rejectUpdateTxn nreqSample 5]).1 .ioErr h1,
    h3, (c7_execute_atomic [] dbSample [rejectUpdateTxn nreqSample 5]).2.1 dbAfterReject
      [[.updatePromise 1, .createNotifications 1, .deleteSubscriptions 1]] htx h3⟩







/-- Inserting notifications for subscriptions with pairwise-distinct keys,
none of which conflicts with the accumulator, appends exactly one row per
subscription. -/
theorem aux_insertNotifRows (t : Int) :
    ∀ (subs : List SubscriptionRow) (acc : List NotificationRow) (k : Nat),
      (∀ s2 ∈ subs, acc.any (notifKeyed s2.id s2.promiseId) = false) →
      subs.Pairwise (fun a b => a.id ≠ b.id ∨ a.promiseId ≠ b.promiseId) →
      insertNotifRows t (acc, k) subs = (acc ++ subs.map (mkNotif t), k + subs.length) := by
  intro subs
  induction subs with
  | nil => intro acc k _ _; simp [insertNotifRows]
  | cons s rest ih =>
    intro acc k hdisj hpair
    rw [List.pairwise_cons] at hpair
    have hs := hdisj s (List.mem_cons_self s rest)
    have hstep : insertNotifRows t (acc, k) (s :: rest) =
        insertNotifRows t (acc ++ [mkNotif t s], k + 1) rest := by
      simp only [insertNotifRows, List.foldl_cons, hs, Bool.false_eq_true, if_false]
    rw [hstep]
    have hdisj2 : ∀ s2 ∈ rest, (acc ++ [mkNotif t s]).any (notifKeyed s2.id s2.promiseId) = false := by
      intro s2 hs2
      rw [List.any_append]
      have h1 := hdisj s2 (List.mem_cons_of_mem s hs2)
      have h2 : (List.any [mkNotif t s] (notifKeyed s2.id s2.promiseId)) = false := by
        simp only [List.any_cons, List.any_nil, Bool.or_false]
        rcases hpair.1 s2 hs2 with hne | hne <;>
          simp [notifKeyed, mkNotif] <;> intro h <;> simp_all
      rw [h1, h2]
      rfl
    rw [ih (acc ++ [mkNotif t s]) (k + 1) hdisj2 hpair.2]
    simp [List.append_assoc]
    omega

/-- C4: when the rejection transaction commits, no subscription of the
promise remains, and each subscription that existed at commit time has
exactly one notification row keyed by it, with `attempt = 0` and `time`
equal to the completion time; `CreateNotifications` runs before
`DeleteSubscriptions` inside the same transaction. -/
theorem c4_reject_cascade (db : DB) (req : RejectPromiseReq) (t : Int)
    (ht : 0 ≤ t)
    (hh : req.value.headers ≠ none) (hd : req.value.data ≠ none)
    (hsub : db.subscriptions.Pairwise (fun a b => a.id ≠ b.id ∨ a.promiseId ≠ b.promiseId))
    (hfresh : ∀ s ∈ db.subscriptions, s.promiseId = req.id →
      ∀ n ∈ db.notifications, ¬ (n.id = s.id ∧ n.promiseId = req.id)) :
    ∃ db2 rs, performCommands [] db [rejectUpdateTxn req t] = .ok (db2, [rs]) ∧
      (∀ s2 ∈ db2.subscriptions, s2.promiseId ≠ req.id) ∧
      (∀ s ∈ db.subscriptions, s.promiseId = req.id →
        db2.notifications.countP (notifKeyed s.id req.id) = 1 ∧
        (∀ n ∈ db2.notifications, n.id = s.id → n.promiseId = req.id →
          n.attempt = 0 ∧ n.time = t)) := by
  classical
  set ucmd : UpdatePromiseCommand :=
    { id := req.id, state := .rejected, value := req.value,
      idempotencyKey := req.idempotencyKey, completedOn := t } with hucmd
  set filtered : List SubscriptionRow :=
    db.subscriptions.filter (fun s => s.promiseId == req.id) with hfiltered
  set db1 : DB :=
    { db with promises := db.promises.map (fun r => if updMatch ucmd r then updRow ucmd r else r) }
    with hdb1
  set dbN : DB := { db1 with notifications := db.notifications ++ filtered.map (mkNotif t) } with hdbN
  set db3 : DB := { dbN with subscriptions := db.subscriptions.filter (fun s => s.promiseId != req.id) }
    with hdb3
  have hdisj : ∀ s2 ∈ filtered, db.notifications.any (notifKeyed s2.id s2.promiseId) = false := by
    intro s2 hs2
    rw [hfiltered, List.mem_filter] at hs2
    have hpid : s2.promiseId = req.id := by simpa using hs2.2
    rw [List.any_eq_false]
    intro n hn
    have := hfresh s2 hs2.1 hpid n hn
    simp only [notifKeyed, hpid]
    intro hcontr
    rw [Bool.and_eq_true, beq_iff_eq, beq_iff_eq] at hcontr
    exact this ⟨hcontr.1, hcontr.2⟩
  have hpairf : filtered.Pairwise (fun a b => a.id ≠ b.id ∨ a.promiseId ≠ b.promiseId) :=
    hsub.filter _
  have hins := aux_insertNotifRows t filtered db.notifications 0 hdisj hpairf
  have h1 : applyCommand db (Command.updatePromise ucmd) =
      .ok (db1, .updatePromise (db.promises.countP (updMatch ucmd))) := by
    simp only [applyCommand, updatePromise]
    rw [if_neg (by simp [aux_state_isIn_terminal State.rejected (by simp)]),
      if_neg (by exact hh), if_neg (by exact hd)]
  have h2 : applyCommand db1 (Command.createNotifications { promiseId := req.id, time := t }) =
      .ok (dbN, .createNotifications filtered.length) := by
    simp only [applyCommand, createNotifications, not_lt.mpr ht, if_neg (not_lt.mpr ht)]
    have hsubs1 : db1.subscriptions = db.subscriptions := rfl
    have hnot1 : db1.notifications = db.notifications := rfl
    rw [hsubs1, hnot1, ← hfiltered, hins]
    simp
  have h3 : applyCommand dbN (Command.deleteSubscriptions { promiseId := req.id }) =
      .ok (db3, .deleteSubscriptions (db.subscriptions.countP (fun s => s.promiseId == req.id))) := by
    simp only [applyCommand, deleteSubscriptions]
  refine ⟨db3, [.updatePromise (db.promises.countP (updMatch ucmd)),
    .createNotifications filtered.length,
    .deleteSubscriptions (db.subscriptions.countP (fun s => s.promiseId == req.id))], ?_, ?_, ?_⟩
  · simp only [performCommands, performTxns, rejectUpdateTxn, performCmds,
      List.headD, List.tail, ← hucmd, h1, h2, h3]
    rfl
  · intro s2 hs2
    rw [hdb3] at hs2
    simp only [List.mem_filter] at hs2
    simpa using hs2.2
  · intro s hs hpid
    constructor
    · have hnot3 : db3.notifications = db.notifications ++ filtered.map (mkNotif t) := rfl
      rw [hnot3, List.countP_append]
      have hz : db.notifications.countP (notifKeyed s.id req.id) = 0 := by
        rw [List.countP_eq_zero]
        intro n hn
        have := hfresh s hs hpid n hn
        simp only [notifKeyed]
        intro hcontr
        rw [Bool.and_eq_true, beq_iff_eq, beq_iff_eq] at hcontr
        exact this ⟨hcontr.1, hcontr.2⟩
      have hmap : (filtered.map (mkNotif t)).countP (notifKeyed s.id req.id) =
          filtered.countP (fun x => x.id == s.id && x.promiseId == req.id) := by
        rw [List.countP_map]
        apply List.countP_congr
        intro x _
        simp [notifKeyed, mkNotif, Function.comp]
      have hone : filtered.countP (fun x => x.id == s.id && x.promiseId == req.id) = 1 := by
        apply aux_countP_eq_one
        · refine hpairf.imp ?_
          intro a b hab hcontr
          simp only [Bool.and_eq_true, beq_iff_eq] at hcontr
          obtain ⟨⟨ha1, ha2⟩, hb1, hb2⟩ := hcontr
          rcases hab with h | h
          · exact h (ha1.trans hb1.symm)
          · exact h (ha2.trans hb2.symm)
        · refine ⟨s, ?_, by simp [hpid]⟩
          rw [hfiltered, List.mem_filter]
          exact ⟨hs, by simp [hpid]⟩
      rw [hz, hmap, hone]
    · intro n hn hnid hnpid
      have hnot3 : db3.notifications = db.notifications ++ filtered.map (mkNotif t) := rfl
      rw [hnot3, List.mem_append] at hn
      rcases hn with hn | hn
      · exact absurd ⟨hnid, hnpid⟩ (hfresh s hs hpid n hn)
      · rw [List.mem_map] at hn
        obtain ⟨x, _, hx⟩ := hn
        rw [← hx]
        exact ⟨rfl, rfl⟩

theorem c4_reject_cascade_witness :
    (0:Int) ≤ 5 ∧ reqReject.value.headers = none ∧
    nreqSample.value.headers ≠ none ∧ nreqSample.value.data ≠ none ∧
    (∃ db2 rs, performCommands [] dbSample [rejectUpdateTxn nreqSample 5] = .ok (db2, [rs]) ∧
      (∀ s2 ∈ db2.subscriptions, s2.promiseId ≠ nreqSample.id) ∧
      (∀ s ∈ dbSample.subscriptions, s.promiseId = nreqSample.id →
        db2.notifications.countP (notifKeyed s.id nreqSample.id) = 1 ∧
        (∀ n ∈ db2.notifications, n.id = s.id → n.promiseId = nreqSample.id →
          n.attempt = 0 ∧ n.time = 5))) := by
  refine ⟨by decide, by decide, by decide, by decide, ?_⟩
  exact c4_reject_cascade dbSample nreqSample 5 (by decide) (by decide) (by decide)
    (by decide) (by decide)


theorem aux_sortDesc_perm (l : List PromiseRow) : (sortDesc l).Perm l :=
  List.perm_insertionSort rowGE l

theorem aux_sorted_sortDesc (l : List PromiseRow) : List.Sorted rowGE (sortDesc l) :=
  List.sorted_insertionSort rowGE l

/-- When sort ids are pairwise distinct, the descending sort is strictly
descending. -/
theorem aux_pairwise_rowGT (l : List PromiseRow)
    (h : l.Pairwise (fun a b => a.sortId ≠ b.sortId)) : (sortDesc l).Pairwise rowGT := by
  have hsym : ∀ {x y : PromiseRow}, x.sortId ≠ y.sortId → y.sortId ≠ x.sortId :=
    fun hxy => hxy.symm
  have hne : (sortDesc l).Pairwise (fun a b => a.sortId ≠ b.sortId) :=
    (List.Perm.pairwise_iff hsym (aux_sortDesc_perm l)).mpr h
  have hge : (sortDesc l).Pairwise rowGE := aux_sorted_sortDesc l
  refine (hge.and hne).imp ?_
  intro a b hab
  exact lt_of_le_of_ne hab.1 (fun he => hab.2 he.symm)

/-- C8: `searchPromises` translates the glob to a LIKE pattern, ORs the
state list into a bitmask, and returns at most `limit` records, each
matching the mask and pattern and strictly below the cursor, in strictly
descending `sortId` order. -/
theorem c8_search_promises (db : DB) (cmd : SearchPromisesCommand)
    (hq : cmd.q ≠ "") (hs : cmd.states ≠ [])
    (hnodup : db.promises.Pairwise (fun a b => a.sortId ≠ b.sortId)) :
    ∃ records, searchPromises db cmd =
        .ok (db, .searchPromises records.length (lastSortIdOf records) records) ∧
      records.length ≤ cmd.limit ∧
      (∀ r ∈ records, r ∈ db.promises ∧
        r.state &&& searchMask cmd.states ≠ 0 ∧
        sqlLike (globToLike cmd.q) r.id = true ∧
        (∀ c, cmd.sortId = some c → r.sortId < c)) ∧
      records.Pairwise rowGT := by
  refine ⟨searchRows db cmd, ?_, ?_, ?_, ?_⟩
  · simp only [searchPromises, if_neg hq, if_neg hs]
  · simp only [searchRows, List.length_take]
    exact min_le_left _ _
  · intro r hr
    have h1 : r ∈ sortDesc (db.promises.filter (fun x =>
        cursorOk cmd.sortId x && searchPred (searchMask cmd.states) (globToLike cmd.q) x)) :=
      List.mem_of_mem_take hr
    have h2 := (aux_sortDesc_perm _).subset h1
    rw [List.mem_filter] at h2
    obtain ⟨hmem, hpred⟩ := h2
    rw [Bool.and_eq_true] at hpred
    obtain ⟨hcur, hsp⟩ := hpred
    have hsp2 := hsp
    simp only [searchPred, Bool.and_eq_true, bne_iff_ne, ne_eq] at hsp2
    refine ⟨hmem, hsp2.1, hsp2.2, ?_⟩
    intro c hc
    rw [hc] at hcur
    simpa [cursorOk] using hcur
  · have hpw : (sortDesc (db.promises.filter (fun x =>
        cursorOk cmd.sortId x && searchPred (searchMask cmd.states) (globToLike cmd.q) x))).Pairwise rowGT :=
      aux_pairwise_rowGT _ (hnodup.filter _)
    simp only [searchRows]
    exact List.Pairwise.sublist (List.take_sublist _ _) hpw


def qStar : String := "p*"

def cmdSearch : SearchPromisesCommand := { q := qStar, states := [.pending], limit := 10, sortId := none }

def dbSearch : DB :=
  { promises := [rowPending, { rowPending with id := "p2", sortId := 2 }]
    timeouts := []
    subscriptions := []
    notifications := [] }

theorem c8_search_promises_witness :
    cmdSearch.q ≠ "" ∧ cmdSearch.states ≠ [] ∧
    dbSearch.promises.Pairwise (fun a b => a.sortId ≠ b.sortId) ∧
    (∃ records, searchPromises dbSearch cmdSearch =
        .ok (dbSearch, .searchPromises records.length (lastSortIdOf records) records) ∧
      records.length ≤ cmdSearch.limit ∧
      (∀ r ∈ records, r ∈ dbSearch.promises ∧
        r.state &&& searchMask cmdSearch.states ≠ 0 ∧
        sqlLike (globToLike cmdSearch.q) r.id = true ∧
        (∀ c, cmdSearch.sortId = some c → r.sortId < c)) ∧
      records.Pairwise rowGT) :=
  ⟨by decide, by decide, by decide,
    c8_search_promises dbSearch cmdSearch (by decide) (by decide) (by decide)⟩

/-- The promises matching the mask and pattern, in the descending `sortId`
order in which the search statement returns them. -/
def matchedSorted (db : DB) (q : String) (states : List State) : List PromiseRow :=
  sortDesc (db.promises.filter (searchPred (searchMask states) (globToLike q)))

/-- The cursor filter commutes with the sort: a search page is a prefix of
the cursor-filtered matched list. -/
theorem aux_searchRows_eq (db : DB) (cmd : SearchPromisesCommand)
    (hnodup : db.promises.Pairwise (fun a b => a.sortId ≠ b.sortId)) :
    searchRows db cmd =
      ((matchedSorted db cmd.q cmd.states).filter (cursorOk cmd.sortId)).take cmd.limit := by
  have hkey : sortDesc (db.promises.filter (fun r =>
        cursorOk cmd.sortId r && searchPred (searchMask cmd.states) (globToLike cmd.q) r)) =
      (matchedSorted db cmd.q cmd.states).filter (cursorOk cmd.sortId) := by
    have hperm2 : ((matchedSorted db cmd.q cmd.states).filter (cursorOk cmd.sortId)).Perm
        ((db.promises.filter (searchPred (searchMask cmd.states) (globToLike cmd.q))).filter
          (cursorOk cmd.sortId)) :=
      (aux_sortDesc_perm _).filter _
    have heq2 : (db.promises.filter (searchPred (searchMask cmd.states) (globToLike cmd.q))).filter
        (cursorOk cmd.sortId) =
        db.promises.filter (fun r =>
          cursorOk cmd.sortId r && searchPred (searchMask cmd.states) (globToLike cmd.q) r) :=
      List.filter_filter _ _
    have hperm : (sortDesc (db.promises.filter (fun r =>
          cursorOk cmd.sortId r && searchPred (searchMask cmd.states) (globToLike cmd.q) r))).Perm
        ((matchedSorted db cmd.q cmd.states).filter (cursorOk cmd.sortId)) := by
      refine (aux_sortDesc_perm _).trans ?_
      rw [heq2] at hperm2
      exact hperm2.symm
    have hs1 : (sortDesc (db.promises.filter (fun r =>
        cursorOk cmd.sortId r && searchPred (searchMask cmd.states) (globToLike cmd.q) r))).Pairwise rowGT :=
      aux_pairwise_rowGT _ (hnodup.filter _)
    have hs2 : ((matchedSorted db cmd.q cmd.states).filter (cursorOk cmd.sortId)).Pairwise rowGT :=
      (aux_pairwise_rowGT _ (hnodup.filter _)).filter _
    exact List.eq_of_perm_of_sorted hperm hs1 hs2
  simp only [searchRows]
  rw [hkey]

theorem aux_lastSortIdOf (l : List PromiseRow) (h : 0 < l.length) :
    lastSortIdOf l = (l[l.length - 1]).sortId := by
  unfold lastSortIdOf
  rw [List.getLastD_eq_getLast?, List.getLast?_map, List.getLast?_eq_getElem?]
  rw [List.getElem?_eq_getElem (by omega)]
  rfl

/-- In a strictly descending list, the rows strictly below the `sortId` at
index `k` are exactly the rows after index `k`. -/
theorem aux_filter_cursorOk_getElem :
    ∀ (m : List PromiseRow), m.Pairwise rowGT →
      ∀ (k : Nat) (hk : k < m.length),
        m.filter (cursorOk (some ((m[k]).sortId))) = m.drop (k + 1) := by
  intro m
  induction m with
  | nil => intro _ k hk; simp at hk
  | cons x xs ih =>
    intro hp k hk
    rw [List.pairwise_cons] at hp
    cases k with
    | zero =>
      have hx : cursorOk (some x.sortId) x = false := by simp [cursorOk]
      have hxs : ∀ y ∈ xs, cursorOk (some x.sortId) y = true := by
        intro y hy
        have := hp.1 y hy
        simp only [rowGT] at this
        simp [cursorOk, this]
      simp [List.filter_cons, hx, List.filter_eq_self.mpr hxs]
    | succ k =>
      have hk2 : k < xs.length := by simpa using hk
      have hgt : rowGT x (xs[k]) := hp.1 _ (List.getElem_mem hk2)
      simp only [List.getElem_cons_succ]
      have hx : cursorOk (some ((xs[k]).sortId)) x = false := by
        simp only [rowGT] at hgt
        simp only [cursorOk, decide_eq_false_iff_not, not_lt]
        omega
      rw [List.filter_cons_of_neg (by simp [hx])]
      rw [ih hp.2 k hk2]
      rfl

/-- Keyset pagination as the spec describes it: run the search, and while a
page is full, feed its `LastSortId` back as the next cursor. -/
def paginatePages (db : DB) (q : String) (states : List State) (limit : Nat) :
    Nat → Option Int → List (List PromiseRow)
  | 0, _ => []
  | fuel + 1, cursor =>
    if (searchRows db { q := q, states := states, limit := limit, sortId := cursor }).length < limit then
      [searchRows db { q := q, states := states, limit := limit, sortId := cursor }]
    else
      searchRows db { q := q, states := states, limit := limit, sortId := cursor } ::
        paginatePages db q states limit fuel
          (some (lastSortIdOf (searchRows db { q := q, states := states, limit := limit, sortId := cursor })))

theorem aux_paginate (db : DB) (q : String) (states : List State) (limit : Nat)
    (hlim : 1 ≤ limit)
    (hnodup : db.promises.Pairwise (fun a b => a.sortId ≠ b.sortId)) :
    ∀ (fuel d : Nat) (cursor : Option Int),
      (matchedSorted db q states).filter (cursorOk cursor) = (matchedSorted db q states).drop d →
      (matchedSorted db q states).length - d + 1 ≤ fuel →
      (paginatePages db q states limit fuel cursor).flatten = (matchedSorted db q states).drop d := by
  have hmGT : (matchedSorted db q states).Pairwise rowGT :=
    aux_pairwise_rowGT _ (hnodup.filter _)
  intro fuel
  induction fuel with
  | zero => intro d cursor _ hf; omega
  | succ fuel ih =>
    intro d cursor hc hf
    have hpage : searchRows db { q := q, states := states, limit := limit, sortId := cursor } =
        ((matchedSorted db q states).drop d).take limit := by
      rw [aux_searchRows_eq db _ hnodup]
      dsimp only
      rw [hc]
    simp only [paginatePages, hpage]
    by_cases hsmall : (((matchedSorted db q states).drop d).take limit).length < limit
    · rw [if_pos hsmall]
      have hlen : ((matchedSorted db q states).drop d).length < limit := by
        rw [List.length_take] at hsmall
        omega
      rw [List.take_of_length_le (le_of_lt hlen)]
      simp
    · rw [if_neg hsmall]
      have hlenge : limit ≤ ((matchedSorted db q states).drop d).length := by
        rw [List.length_take] at hsmall
        omega
      have hlend : ((matchedSorted db q states).drop d).length =
          (matchedSorted db q states).length - d := List.length_drop _ _
      have hplen : ((((matchedSorted db q states).drop d).take limit)).length = limit := by
        rw [List.length_take]
        omega
      have hk : d + (limit - 1) < (matchedSorted db q states).length := by omega
      have hlast : lastSortIdOf (((matchedSorted db q states).drop d).take limit) =
          ((matchedSorted db q states)[d + (limit - 1)]).sortId := by
        rw [aux_lastSortIdOf _ (by omega)]
        simp only [hplen, List.getElem_take, List.getElem_drop]
      have hnext : (matchedSorted db q states).filter
          (cursorOk (some (lastSortIdOf (((matchedSorted db q states).drop d).take limit)))) =
          (matchedSorted db q states).drop (d + limit) := by
        rw [hlast, aux_filter_cursorOk_getElem (matchedSorted db q states) hmGT (d + (limit - 1)) hk]
        congr 1
        omega
      rw [List.flatten_cons, ih (d + limit) _ hnext (by omega)]
      have hdd : (matchedSorted db q states).drop (d + limit) =
          ((matchedSorted db q states).drop d).drop limit := by
        rw [List.drop_drop]
      rw [hdd, List.take_append_drop]

/-- C9: for fixed store contents, paging with the cursor protocol (start at
nil, feed each page's `LastSortId` back until a short page) enumerates the
matching promises exactly once: the concatenation of the pages is the
descending matched list, and each matching id occurs in exactly one page
position, no id twice. -/
theorem c9_cursor_roundtrip (db : DB) (q : String) (states : List State) (limit fuel : Nat)
    (hq : q ≠ "") (hs : states ≠ []) (hlim : 1 ≤ limit)
    (hnodupSort : db.promises.Pairwise (fun a b => a.sortId ≠ b.sortId))
    (hnodupId : db.promises.Pairwise (fun a b => a.id ≠ b.id))
    (hfuel : db.promises.length + 1 ≤ fuel) :
    (∀ cursor, searchPromises db { q := q, states := states, limit := limit, sortId := cursor } =
      .ok (db, .searchPromises
        (searchRows db { q := q, states := states, limit := limit, sortId := cursor }).length
        (lastSortIdOf (searchRows db { q := q, states := states, limit := limit, sortId := cursor }))
        (searchRows db { q := q, states := states, limit := limit, sortId := cursor }))) ∧
    (paginatePages db q states limit fuel none).flatten = matchedSorted db q states ∧
    (∀ r ∈ db.promises, searchPred (searchMask states) (globToLike q) r = true →
      ((paginatePages db q states limit fuel none).flatten.countP (fun x => x.id == r.id)) = 1) ∧
    (∀ s : String, ((paginatePages db q states limit fuel none).flatten.countP (fun x => x.id == s)) ≤ 1) := by
  have hjoin : (paginatePages db q states limit fuel none).flatten = matchedSorted db q states := by
    have h0 : (matchedSorted db q states).filter (cursorOk none) =
        (matchedSorted db q states).drop 0 := by
      rw [List.drop_zero]
      exact List.filter_eq_self.mpr (fun a _ => rfl)
    have hlen : (matchedSorted db q states).length ≤ db.promises.length := by
      unfold matchedSorted
      rw [(aux_sortDesc_perm _).length_eq]
      exact List.length_filter_le _ _
    have := aux_paginate db q states limit hlim hnodupSort fuel 0 none h0 (by omega)
    rw [List.drop_zero] at this
    exact this
  have hpairId : ∀ (s : String),
      (matchedSorted db q states).Pairwise (fun a b =>
        ¬ ((a.id == s) = true ∧ (b.id == s) = true)) := by
    intro s
    have hsym : ∀ {x y : PromiseRow}, x.id ≠ y.id → y.id ≠ x.id := fun hxy => hxy.symm
    have hne : (matchedSorted db q states).Pairwise (fun a b => a.id ≠ b.id) :=
      (List.Perm.pairwise_iff hsym (aux_sortDesc_perm _)).mpr (hnodupId.filter _)
    refine hne.imp ?_
    intro a b hab hcontr
    simp only [beq_iff_eq] at hcontr
    exact hab (hcontr.1.trans hcontr.2.symm)
  refine ⟨?_, hjoin, ?_, ?_⟩
  · intro cursor
    simp only [searchPromises]
    rw [if_neg (by simpa using hq), if_neg (by simpa using hs)]
  · intro r hr hpred
    rw [hjoin]
    apply aux_countP_eq_one (hpairId r.id)
    refine ⟨r, ?_, by simp⟩
    apply (aux_sortDesc_perm _).mem_iff.mpr
    exact List.mem_filter.mpr ⟨hr, hpred⟩
  · intro s
    rw [hjoin]
    exact aux_countP_le_one (hpairId s)

theorem c9_cursor_roundtrip_witness :
    (qStar ≠ "") ∧ ([State.pending] ≠ ([] : List State)) ∧ 1 ≤ 1 ∧
    dbSearch.promises.Pairwise (fun a b => a.sortId ≠ b.sortId) ∧
    dbSearch.promises.Pairwise (fun a b => a.id ≠ b.id) ∧
    dbSearch.promises.length + 1 ≤ 3 ∧
    (paginatePages dbSearch qStar [State.pending] 1 3 none).flatten =
      matchedSorted dbSearch qStar [State.pending] ∧
    (∀ r ∈ dbSearch.promises,
      searchPred (searchMask [State.pending]) (globToLike qStar) r = true →
      ((paginatePages dbSearch qStar [State.pending] 1 3 none).flatten.countP
        (fun x => x.id == r.id)) = 1) ∧
    (∀ s : String, ((paginatePages dbSearch qStar [State.pending] 1 3 none).flatten.countP
      (fun x => x.id == s)) ≤ 1) := by
  have h := c9_cursor_roundtrip dbSearch qStar [State.pending] 1 3
    (by decide) (by decide) (by decide) (by decide) (by decide) (by decide)
  exact ⟨by decide, by decide, by decide, by decide, by decide, by decide, h.2.1, h.2.2.1, h.2.2.2⟩

end Resonate
